import Mathlib

/-!
Verification development for the Nucleo-G431 PCM audio pedal DSP core.

Shallow embedding of the fixed-point DSP chain found in
`Core/Src/dsp/dsp_delay.c`, `Core/Src/dsp/dsp_reverb.c`,
`Core/Src/dsp/dsp_filters.c`, `Core/Src/dsp/dsp_distortion.c` and
`Core/Src/dsp/app_dsp.c` (the modular orchestrator; the legacy monolith
`Core/Src/app_dsp.c` contains textually identical copies of the routines
referenced below).

Conventions of the embedding:
* C `int32_t`/`int64_t` values are modelled as `ℤ`.  All arithmetic in the
  embedded routines stays far inside the 64-bit range for the states reached
  in the theorems below, and the C code performs the products in `int64_t`,
  so no wrap-around modelling is needed there.
* C arithmetic right shift `>> n` on a signed value is `· >>> n` on `ℤ`
  (floor division by `2 ^ n`, which is what arithmetic shift does).
* C unsigned index masking `i & (len - 1)` for a power-of-two `len` is
  modelled as `i % len` (equal on ℕ).
* `m & 0xFF` / `(v + LEN) & MASK` on a (possibly negative) signed operand is
  modelled by `Int.emod` with the corresponding power of two, which produces
  exactly the low bits of the two's-complement representation.
* C truncating division on nonnegative operands (the only signed divisions
  that occur) is written `/` (`Int.ediv`), which agrees with truncation for
  nonnegative numerator and positive denominator.
* The `uint32_t` millisecond timestamps and the LFO phase accumulator are
  modelled as `ℕ` reduced modulo `2 ^ 32`.
* Circular buffers are modelled as total functions `ℕ → ℤ`; the C arrays are
  only ever indexed inside `[0, len)` and the invariants below carry the
  corresponding index bounds.
-/

/-! ### Fixed-point primitives (dsp helpers, identical in every module) -/

/-- `clamp_s24` from the C sources: saturate to the signed 24-bit range. -/
def clamp_s24 (x : ℤ) : ℤ :=
  if x > 8388607 then 8388607
  else if x < -8388608 then -8388608
  else x

/-- Arithmetic shift right on `ℤ` (C `>>` on a signed operand). -/
def sar (x : ℤ) (n : ℕ) : ℤ := x >>> n

/-- `s24_to_s16` from `dsp_delay.c`: clamp to s24, drop 8 bits, saturate to s16. -/
def s24_to_s16 (x : ℤ) : ℤ :=
  let y := sar (clamp_s24 x) 8
  if y > 32767 then 32767
  else if y < -32768 then -32768
  else y

/-- `abs_s32` from `dsp_filters.c`. -/
def abs_s32 (x : ℤ) : ℤ := if x ≥ 0 then x else -x

/-- `gain_s32_q8` from `app_dsp.c`: `(x * gain_q8) >> 8` in 64-bit. -/
def gain_s32_q8 (x gain_q8 : ℤ) : ℤ := sar (x * gain_q8) 8

/-- `mix_s24` from `app_dsp.c`: `(dry*(32768-mix) + wet*mix) >> 15` in 64-bit. -/
def mix_s24 (dry wet mix_q15 : ℤ) : ℤ :=
  sar (dry * (32768 - mix_q15) + wet * mix_q15) 15

/-- `onepole_lpf_s24` from `dsp_delay.c` (also `DspFilters_OnePole` in
`dsp_filters.c`): `y += (a*(x-y)) >> 15`, clamped; the return value is also
the new filter state. -/
def onepole_lpf_s24 (x st a_q15 : ℤ) : ℤ :=
  clamp_s24 (st + sar (a_q15 * (x - st)) 15)

/-- Membership in the saturated signed 24-bit sample range. -/
def inS24 (x : ℤ) : Prop := -8388608 ≤ x ∧ x ≤ 8388607

instance (x : ℤ) : Decidable (inS24 x) := by unfold inS24; infer_instance

/-! ### Basic lemmas about the primitives -/

theorem sar_eq_ediv (x : ℤ) (n : ℕ) : sar x n = x / (2 ^ n : ℤ) := by
  unfold sar
  rw [Int.shiftRight_eq_div_pow]
  norm_cast

theorem clamp_s24_mem (x : ℤ) : inS24 (clamp_s24 x) := by
  unfold clamp_s24 inS24
  split <;> [omega; skip]
  split <;> omega

theorem clamp_s24_of_mem {x : ℤ} (h : inS24 x) : clamp_s24 x = x := by
  unfold clamp_s24
  unfold inS24 at h
  split <;> [omega; skip]
  split <;> omega

theorem s24_to_s16_mem (x : ℤ) : -32768 ≤ s24_to_s16 x ∧ s24_to_s16 x ≤ 32767 := by
  unfold s24_to_s16
  have h := clamp_s24_mem x
  unfold inS24 at h
  simp only [sar_eq_ediv]
  split <;> [omega; skip]
  split <;> omega

theorem sar_nonneg {x : ℤ} (h : 0 ≤ x) (n : ℕ) : 0 ≤ sar x n := by
  rw [sar_eq_ediv]
  exact Int.ediv_nonneg h (by positivity)

theorem sar_nonpos {x : ℤ} (h : x ≤ 0) (n : ℕ) : sar x n ≤ 0 := by
  rw [sar_eq_ediv]
  calc x / (2 ^ n : ℤ) ≤ 0 / (2 ^ n : ℤ) := Int.ediv_le_ediv (by positivity) h
  _ = 0 := Int.zero_ediv _

/-- A Q15 product `(a * t) >> 15` with `a ∈ [0, 32768]` lies between `0` and
`t` (on whichever side of `0` the value `t` is). -/
theorem sar15_between {a t : ℤ} (ha0 : 0 ≤ a) (ha1 : a ≤ 32768) :
    (0 ≤ t → 0 ≤ sar (a * t) 15 ∧ sar (a * t) 15 ≤ t) ∧
    (t ≤ 0 → t ≤ sar (a * t) 15 ∧ sar (a * t) 15 ≤ 0) := by
  have h2 : (0 : ℤ) < 2 ^ 15 := by norm_num
  constructor
  · intro ht
    refine ⟨sar_nonneg (mul_nonneg ha0 ht) 15, ?_⟩
    rw [sar_eq_ediv]
    have hle : a * t ≤ t * 2 ^ 15 := by nlinarith
    calc a * t / (2 ^ 15 : ℤ) ≤ t * 2 ^ 15 / (2 ^ 15 : ℤ) := Int.ediv_le_ediv h2 hle
    _ = t := Int.mul_ediv_cancel t (by norm_num)
  · intro ht
    refine ⟨?_, sar_nonpos (mul_nonpos_of_nonneg_of_nonpos ha0 ht) 15⟩
    rw [sar_eq_ediv]
    have hle : t * 2 ^ 15 ≤ a * t := by nlinarith
    calc t = t * 2 ^ 15 / (2 ^ 15 : ℤ) := (Int.mul_ediv_cancel t (by norm_num)).symm
    _ ≤ a * t / (2 ^ 15 : ℤ) := Int.ediv_le_ediv h2 hle

/-- A one-pole low-pass step without clamping, `st + (a*(x-st) >> 15)` with
`a ∈ [0, 32768]`, stays between `st` and `x`. -/
theorem onepole_core_between {x st a : ℤ} (ha0 : 0 ≤ a) (ha1 : a ≤ 32768) :
    min st x ≤ st + sar (a * (x - st)) 15 ∧ st + sar (a * (x - st)) 15 ≤ max st x := by
  rcases le_or_lt st x with h | h
  · have := (@sar15_between a (x - st) ha0 ha1).1 (by omega)
    constructor
    · calc min st x ≤ st := min_le_left _ _
      _ ≤ st + sar (a * (x - st)) 15 := by omega
    · calc st + sar (a * (x - st)) 15 ≤ st + (x - st) := by omega
      _ = x := by ring
      _ ≤ max st x := le_max_right _ _
  · have := (@sar15_between a (x - st) ha0 ha1).2 (by omega)
    constructor
    · calc min st x ≤ x := min_le_right _ _
      _ = st + (x - st) := by ring
      _ ≤ st + sar (a * (x - st)) 15 := by omega
    · calc st + sar (a * (x - st)) 15 ≤ st := by omega
      _ ≤ max st x := le_max_left _ _

/-! ### Delay effect (`dsp_delay.c`) -/

/-- Per-channel delay state (`DelayState` in `dsp_delay.h`): write cursor,
decimation phase, held output, feedback-LPF state. -/
structure DelayState where
  idx : ℕ
  phase : ℕ
  last_out_s24 : ℤ
  fb_lp_s24 : ℤ
deriving DecidableEq, Repr

/-- `DspDelay_Process` from `dsp_delay.c`.  `feedback_q15` is the runtime
feedback parameter (`s_delay_feedback_q15`), `delay` the channel's 16-bit
circular buffer (1024 entries), `st` the channel state.  Returns the updated
buffer, the updated state and the produced wet sample.  The `phase` advance
`(phase + 1) % 8` happens in both branches, exactly as in the C code where it
sits after the conditional block. -/
def DspDelay_Process (feedback_q15 x : ℤ) (delay : ℕ → ℤ) (st : DelayState) :
    (ℕ → ℤ) × DelayState × ℤ :=
  if st.phase = 0 then
    let i := st.idx
    let d := delay i * 256
    let fb_lp := onepole_lpf_s24 d st.fb_lp_s24 1024
    let fb := sar (feedback_q15 * fb_lp) 15
    let delay2 := Function.update delay i (s24_to_s16 (clamp_s24 (x + fb)))
    (delay2,
     { idx := (i + 1) % 1024, phase := (st.phase + 1) % 8,
       last_out_s24 := d, fb_lp_s24 := fb_lp },
     d)
  else
    (delay, { st with phase := (st.phase + 1) % 8 }, st.last_out_s24)

/-- Invariant tying a delay buffer and state together: the cursor is inside
the 1024-entry buffer, the phase counter is a valid decimation phase, every
stored buffer word is a 16-bit value (hence its s24 interpretation `· * 256`
is in the saturated sample range), and the held output and feedback-LPF state
are saturated samples. -/
def DelayInv (delay : ℕ → ℤ) (st : DelayState) : Prop :=
  st.idx < 1024 ∧ st.phase < 8 ∧
  (∀ j, -32768 ≤ delay j ∧ delay j ≤ 32767) ∧
  inS24 st.last_out_s24 ∧ inS24 st.fb_lp_s24

/-- The all-zero initial delay buffer (`memset` in `DspDelay_Init`). -/
def delayBuf0 : ℕ → ℤ := fun _ => 0

/-- The reset per-channel delay state (`DspDelay_Init`). -/
def delayState0 : DelayState := ⟨0, 0, 0, 0⟩

theorem delayInv_init : DelayInv delayBuf0 delayState0 := by
  refine ⟨by norm_num [delayState0], by norm_num [delayState0], ?_, ?_, ?_⟩ <;>
    simp [delayBuf0, delayState0, inS24]

/-- One `DspDelay_Process` step preserves the delay invariant and produces a
saturated wet sample, for any feedback value (the theorems below only ever
instantiate it inside `[0, 32768]`, but boundedness does not even need that:
every buffer write is saturated by `s24_to_s16` and the wet output is a
previously stored buffer word scaled by 256). -/
theorem DspDelay_Process_inv (f x : ℤ) {delay : ℕ → ℤ} {st : DelayState}
    (h : DelayInv delay st) :
    DelayInv (DspDelay_Process f x delay st).1 (DspDelay_Process f x delay st).2.1 ∧
    inS24 (DspDelay_Process f x delay st).2.2 := by
  obtain ⟨hidx, hphase, hbuf, hlast, hfblp⟩ := h
  unfold DspDelay_Process
  split
  · have hd : inS24 (delay st.idx * 256) := by
      have := hbuf st.idx
      unfold inS24
      omega
    refine ⟨⟨Nat.mod_lt _ (by norm_num), Nat.mod_lt _ (by norm_num), ?_, hd, ?_⟩, hd⟩
    · intro j
      rcases eq_or_ne j st.idx with rfl | hne
      · simpa using s24_to_s16_mem _
      · simpa [Function.update_apply, hne] using hbuf j
    · exact clamp_s24_mem _
  · exact ⟨⟨hidx, Nat.mod_lt _ (by norm_num), hbuf, hlast, hfblp⟩, hlast⟩

/-- Folding `DspDelay_Process` over a list of input samples, collecting the
wet outputs. -/
def delayRun (f : ℤ) (xs : List ℤ) (delay : ℕ → ℤ) (st : DelayState) :
    ((ℕ → ℤ) × DelayState) × List ℤ :=
  match xs with
  | [] => ((delay, st), [])
  | x :: xs =>
    let r := DspDelay_Process f x delay st
    let rest := delayRun f xs r.1 r.2.1
    (rest.1, r.2.2 :: rest.2)

theorem delayRun_inv (f : ℤ) (xs : List ℤ) {delay : ℕ → ℤ} {st : DelayState}
    (h : DelayInv delay st) :
    DelayInv (delayRun f xs delay st).1.1 (delayRun f xs delay st).1.2 ∧
    ∀ y ∈ (delayRun f xs delay st).2, inS24 y := by
  induction xs generalizing delay st with
  | nil => simpa [delayRun] using h
  | cons x xs ih =>
    have hstep := DspDelay_Process_inv f x h
    have hrest := ih hstep.1
    refine ⟨hrest.1, ?_⟩
    intro y hy
    simp only [delayRun, List.mem_cons] at hy
    rcases hy with rfl | hy
    · exact hstep.2
    · exact hrest.2 y hy

/-! ### Reverb effect (`dsp_reverb.c`) -/

/-- `triangle_lfo_offset_q8` from `dsp_reverb.c`.  The phase accumulator is a
`uint32_t`; the return value is the fractional tap offset in Q8 together with
the advanced phase.  `(off * (amp*256)) / 64` is a C truncating division; it
is written with `Int.tdiv` to match C exactly (the callers fix
`amp_samples = 0`, making the quotient `0` anyway). -/
def triangle_lfo_offset_q8 (phase step : ℕ) (amp_samples : ℤ) : ℕ × ℤ :=
  let ph := (phase + step) % 4294967296
  let t : ℕ := ph / 16777216
  let tri : ℤ := if t < 128 then (t : ℤ) else (255 - (t : ℤ))
  let off : ℤ := tri - 64
  let off_q8 := Int.tdiv (off * (amp_samples * 256)) 64
  let lim := amp_samples * 256
  let o1 := if off_q8 > lim then lim else off_q8
  let o2 := if o1 < -lim then -lim else o1
  (ph, o2)

/-- `allpass_process_s24_len` from `dsp_reverb.c` with fixed gain
`REVERB_AP_G_Q15 = 22938`.  `base` models the `&ap_buf[0]` / `&ap_buf[64]`
sub-buffer pointers into the shared 128-entry allpass array; `len` is
`mask + 1`.  Returns the updated buffer, updated index, and output. -/
def allpass_process_s24_len (x : ℤ) (buf : ℕ → ℤ) (base idx len : ℕ) :
    (ℕ → ℤ) × ℕ × ℤ :=
  let b := buf (base + idx)
  let y := b - sar (22938 * x) 15
  let new_b := x + sar (22938 * y) 15
  (Function.update buf (base + idx) (clamp_s24 new_b), (idx + 1) % len, clamp_s24 y)

/-- Per-channel reverb state: the statics
`s_reverb_delay_*`, `s_reverb_delay_idx_*`, `s_reverb_lp_*`, `s_reverb_ap_*`,
`s_reverb_ap1_idx_*`, `s_reverb_ap2_idx_*`, `s_reverb_lfo_*` of
`dsp_reverb.c`, grouped per channel. -/
structure ReverbState where
  delay : ℕ → ℤ
  delay_idx : ℕ
  lp : ℤ
  ap : ℕ → ℤ
  ap1_idx : ℕ
  ap2_idx : ℕ
  lfo : ℕ

/-- `DspReverb_Process` from `dsp_reverb.c`.  `feedback_q15` and `damp_q15`
are the runtime parameters `s_reverb_feedback_q15` / `s_reverb_damp_q15`.
`REVERB_MOD_AMP_SAMPLES = 0` is passed to the LFO exactly as in the source.
The masked signed tap index `(i + mod_i + 2048) & 2047` and the unsigned
byte mask `mod_q8 & 0xFF` are modelled with `emod` (see file header). -/
def DspReverb_Process (feedback_q15 damp_q15 x : ℤ) (s : ReverbState)
    (lfo_step : ℕ) : ReverbState × ℤ :=
  let i := s.delay_idx
  let lf := triangle_lfo_offset_q8 s.lfo lfo_step 0
  let mod_q8 := lf.2
  let mod_i := sar mod_q8 8
  let frac : ℤ := mod_q8 % 256
  let ri0 : ℕ := (((i : ℤ) + mod_i + 2048) % 2048).toNat
  let ri1 : ℕ := (ri0 + 1) % 2048
  let d0 := s.delay ri0
  let d1 := s.delay ri1
  let d := d0 + sar ((d1 - d0) * frac) 8
  let lpv := s.lp + sar (damp_q15 * (d - s.lp)) 15
  let fb := sar (feedback_q15 * lpv) 15
  let delay2 := Function.update s.delay i (clamp_s24 (x + fb))
  let a1 := allpass_process_s24_len d s.ap 0 s.ap1_idx 64
  let a2 := allpass_process_s24_len a1.2.2 a1.1 64 s.ap2_idx 64
  ({ delay := delay2, delay_idx := (i + 1) % 2048, lp := lpv,
     ap := a2.1, ap1_idx := a1.2.1, ap2_idx := a2.2.1, lfo := lf.1 },
   a2.2.2)

/-- Invariant on the reverb state: indices inside their buffers, LFO phase a
`uint32_t` value, every delay-line and allpass word a saturated sample, and
the damping-LPF state a saturated sample. -/
def ReverbInv (s : ReverbState) : Prop :=
  s.delay_idx < 2048 ∧ s.ap1_idx < 64 ∧ s.ap2_idx < 64 ∧ s.lfo < 4294967296 ∧
  (∀ j, inS24 (s.delay j)) ∧ (∀ j, inS24 (s.ap j)) ∧ inS24 s.lp

/-- The reset reverb state (`DspReverb_Init`). -/
def reverbState0 : ReverbState :=
  { delay := fun _ => 0, delay_idx := 0, lp := 0,
    ap := fun _ => 0, ap1_idx := 0, ap2_idx := 0, lfo := 0 }

theorem reverbInv_init : ReverbInv reverbState0 := by
  refine ⟨by norm_num [reverbState0], by norm_num [reverbState0],
    by norm_num [reverbState0], by norm_num [reverbState0], ?_, ?_, ?_⟩ <;>
    simp [reverbState0, inS24]

/-- With the modulation amplitude fixed at `0` (the only value used by the
source), the LFO offset is `0`. -/
theorem triangle_lfo_amp0 (phase step : ℕ) :
    (triangle_lfo_offset_q8 phase step 0).2 = 0 := by
  unfold triangle_lfo_offset_q8
  simp

theorem triangle_lfo_phase_lt (phase step : ℕ) :
    (triangle_lfo_offset_q8 phase step 0).1 < 4294967296 := by
  unfold triangle_lfo_offset_q8
  exact Nat.mod_lt _ (by norm_num)

/-- One `DspReverb_Process` step preserves the reverb invariant (for damping
in `[0, 32768]`; the feedback scale and the input may be anything since the
delay write is saturated) and produces a saturated wet sample. -/
theorem DspReverb_Process_inv (f damp x : ℤ) {s : ReverbState} (lfo_step : ℕ)
    (hd0 : 0 ≤ damp) (hd1 : damp ≤ 32768)
    (h : ReverbInv s) :
    ReverbInv (DspReverb_Process f damp x s lfo_step).1 ∧
    inS24 (DspReverb_Process f damp x s lfo_step).2 := by
  obtain ⟨hi, ha1, ha2, hlfo, hdel, hap, hlp⟩ := h
  unfold DspReverb_Process
  simp only [triangle_lfo_amp0]
  have hmodi : sar 0 8 = 0 := by rw [sar_eq_ediv]; exact Int.zero_ediv _
  have hfrac : (0 : ℤ) % 256 = 0 := by norm_num
  simp only [hmodi, hfrac, mul_zero, add_zero]
  set ri0 : ℕ := (((s.delay_idx : ℤ) + 2048) % 2048).toNat with hri0
  set d := s.delay ri0 with hdd
  have hdS24 : inS24 d := hdel ri0
  set lpv := s.lp + sar (damp * (d - s.lp)) 15 with hlpv
  have hlpv24 : inS24 lpv := by
    have hb := @onepole_core_between d s.lp damp hd0 hd1
    unfold inS24 at hdS24 hlp ⊢
    rw [hlpv]
    constructor
    · calc (-8388608 : ℤ) ≤ min s.lp d := by
            rcases min_cases s.lp d with ⟨heq, _⟩ | ⟨heq, _⟩ <;> omega
      _ ≤ _ := hb.1
    · calc s.lp + sar (damp * (d - s.lp)) 15 ≤ max s.lp d := hb.2
      _ ≤ 8388607 := by rcases max_cases s.lp d with ⟨heq, _⟩ | ⟨heq, _⟩ <;> omega
  refine ⟨⟨Nat.mod_lt _ (by norm_num), Nat.mod_lt _ (by norm_num),
    Nat.mod_lt _ (by norm_num), triangle_lfo_phase_lt _ _, ?_, ?_, hlpv24⟩,
    clamp_s24_mem _⟩
  · intro j
    rcases eq_or_ne j s.delay_idx with rfl | hne
    · simpa using clamp_s24_mem _
    · simpa [Function.update_apply, hne] using hdel j
  · intro j
    unfold allpass_process_s24_len
    simp only
    rcases eq_or_ne j (64 + s.ap2_idx) with rfl | hne2
    · simpa using clamp_s24_mem _
    · rw [Function.update_apply, if_neg hne2]
      rcases eq_or_ne j (0 + s.ap1_idx) with rfl | hne1
      · simpa using clamp_s24_mem _
      · rw [Function.update_apply, if_neg hne1]
        exact hap j

/-- Folding `DspReverb_Process` over a list of input samples, collecting the
wet outputs. -/
def reverbRun (f damp : ℤ) (lfo_step : ℕ) (xs : List ℤ) (s : ReverbState) :
    ReverbState × List ℤ :=
  match xs with
  | [] => (s, [])
  | x :: xs =>
    let r := DspReverb_Process f damp x s lfo_step
    let rest := reverbRun f damp lfo_step xs r.1
    (rest.1, r.2 :: rest.2)

theorem reverbRun_inv (f damp : ℤ) (lfo_step : ℕ) (xs : List ℤ)
    {s : ReverbState} (hd0 : 0 ≤ damp) (hd1 : damp ≤ 32768) (h : ReverbInv s) :
    ReverbInv (reverbRun f damp lfo_step xs s).1 ∧
    ∀ y ∈ (reverbRun f damp lfo_step xs s).2, inS24 y := by
  induction xs generalizing s with
  | nil => simpa [reverbRun] using h
  | cons x xs ih =>
    have hstep := DspReverb_Process_inv f damp x lfo_step hd0 hd1 h
    have hrest := ih hstep.1
    refine ⟨hrest.1, ?_⟩
    intro y hy
    simp only [reverbRun, List.mem_cons] at hy
    rcases hy with rfl | hy
    · exact hstep.2
    · exact hrest.2 y hy

/-! ### Claim C1 -/

/-- Claim C1: for every feedback value in `[0, 32768]` (delay feedback,
reverb feedback) and every input sequence of samples in the 24-bit range,
all values stored in the delay effect's circular buffer and the reverb
effect's delay and allpass buffers stay within the saturated sample range
`[-8388608, 8388607]` after every processed sample (the delay buffer stores
16-bit words; both the raw words and their s24 interpretation `· * 256` are
inside the range), and consequently the wet outputs of `DspDelay_Process`
and `DspReverb_Process` remain within the saturated sample range
indefinitely, even at the maximum feedback value `32768`. -/
theorem C1_saturation_invariant
    (fbD fbR damp : ℤ) (lfo_step : ℕ) (xs : List ℤ)
    (hfbD0 : 0 ≤ fbD) (hfbD1 : fbD ≤ 32768)
    (hfbR0 : 0 ≤ fbR) (hfbR1 : fbR ≤ 32768)
    (hdamp0 : 0 ≤ damp) (hdamp1 : damp ≤ 32768)
    (hxs : ∀ x ∈ xs, inS24 x) :
    (∀ n, DelayInv (delayRun fbD (xs.take n) delayBuf0 delayState0).1.1
                   (delayRun fbD (xs.take n) delayBuf0 delayState0).1.2) ∧
    (∀ n j, inS24 ((delayRun fbD (xs.take n) delayBuf0 delayState0).1.1 j) ∧
            inS24 ((delayRun fbD (xs.take n) delayBuf0 delayState0).1.1 j * 256)) ∧
    (∀ y ∈ (delayRun fbD xs delayBuf0 delayState0).2, inS24 y) ∧
    (∀ n, ReverbInv (reverbRun fbR damp lfo_step (xs.take n) reverbState0).1) ∧
    (∀ y ∈ (reverbRun fbR damp lfo_step xs reverbState0).2, inS24 y) := by
  have hdel : ∀ n, DelayInv (delayRun fbD (xs.take n) delayBuf0 delayState0).1.1
      (delayRun fbD (xs.take n) delayBuf0 delayState0).1.2 :=
    fun n => (delayRun_inv fbD (xs.take n) delayInv_init).1
  refine ⟨hdel, ?_, (delayRun_inv fbD xs delayInv_init).2, ?_, ?_⟩
  · intro n j
    have h16 := (hdel n).2.2.1 j
    unfold inS24
    omega
  · intro n
    exact (reverbRun_inv fbR damp lfo_step (xs.take n) hdamp0 hdamp1 reverbInv_init).1
  · exact (reverbRun_inv fbR damp lfo_step xs hdamp0 hdamp1 reverbInv_init).2

/-- Witness for C1: both feedbacks and the damping at the maximum `32768`,
with a full-scale input burst. -/
theorem C1_saturation_invariant_witness :
    (∀ y ∈ (delayRun 32768 [8388607, -8388608, 0] delayBuf0 delayState0).2, inS24 y) ∧
    (∀ y ∈ (reverbRun 32768 32768 65536 [8388607, -8388608, 0] reverbState0).2, inS24 y) := by
  have h := C1_saturation_invariant 32768 32768 32768 65536 [8388607, -8388608, 0]
      (by norm_num) (by norm_num) (by norm_num) (by norm_num) (by norm_num) (by norm_num)
      (by decide)
  exact ⟨h.2.2.1, h.2.2.2.2⟩

/-! ### Claim C6 -/

/-- Claim C6: `DspDelay_Process` updates its circular buffer only once every
8 input samples (the phase counter advances by `(phase + 1) % 8` on every
call); on an update tick (`phase = 0`) it reads the buffer at the cursor,
low-passes the read value into `fb_lp_s24`, scales it by the runtime
feedback coefficient, sums with the input, saturates, writes back at the
cursor, advances the cursor with masked wraparound (the cursor always stays
in `[0, 1024)`), and stores the pre-feedback delayed sample as the held
output; on the other 7 ticks it returns the previously held output and
leaves buffer, cursor and feedback state unmodified. -/
theorem C6_delay_decimation (f x : ℤ) (buf : ℕ → ℤ) (st : DelayState)
    (hidx : st.idx < 1024) :
    (DspDelay_Process f x buf st).2.1.phase = (st.phase + 1) % 8 ∧
    (DspDelay_Process f x buf st).2.1.idx < 1024 ∧
    (st.phase = 0 →
      (DspDelay_Process f x buf st).1 =
        Function.update buf st.idx
          (s24_to_s16 (clamp_s24
            (x + sar (f * onepole_lpf_s24 (buf st.idx * 256) st.fb_lp_s24 1024) 15))) ∧
      (DspDelay_Process f x buf st).2.1.idx = (st.idx + 1) % 1024 ∧
      (DspDelay_Process f x buf st).2.1.fb_lp_s24 =
        onepole_lpf_s24 (buf st.idx * 256) st.fb_lp_s24 1024 ∧
      (DspDelay_Process f x buf st).2.1.last_out_s24 = buf st.idx * 256 ∧
      (DspDelay_Process f x buf st).2.2 = buf st.idx * 256) ∧
    (st.phase ≠ 0 →
      (DspDelay_Process f x buf st).1 = buf ∧
      (DspDelay_Process f x buf st).2.1.idx = st.idx ∧
      (DspDelay_Process f x buf st).2.1.fb_lp_s24 = st.fb_lp_s24 ∧
      (DspDelay_Process f x buf st).2.1.last_out_s24 = st.last_out_s24 ∧
      (DspDelay_Process f x buf st).2.2 = st.last_out_s24) := by
  by_cases h : st.phase = 0
  · refine ⟨by simp [DspDelay_Process, h], ?_, fun _ => ?_, fun hc => absurd h hc⟩
    · simpa [DspDelay_Process, h] using Nat.mod_lt (st.idx + 1) (by norm_num)
    · refine ⟨?_, ?_, ?_, ?_, ?_⟩ <;> simp [DspDelay_Process, h]
  · refine ⟨by simp [DspDelay_Process, h], ?_, fun hc => absurd hc h, fun _ => ?_⟩
    · simpa [DspDelay_Process, h] using hidx
    · refine ⟨?_, ?_, ?_, ?_, ?_⟩ <;> simp [DspDelay_Process, h]

/-- Witness for C6: a concrete state on an update tick. -/
theorem C6_delay_decimation_witness :
    (DspDelay_Process 16384 1000 delayBuf0 delayState0).2.1.phase = 1 ∧
    (DspDelay_Process 16384 1000 delayBuf0 delayState0).2.1.idx < 1024 := by
  have h := C6_delay_decimation 16384 1000 delayBuf0 delayState0 (by decide)
  exact ⟨h.1, h.2.1⟩

/-! ### Limiter (`dsp_filters.c`) and Claim C2 -/

/-- `LimiterState` from `dsp_filters.h`. -/
structure LimiterState where
  gain_q15 : ℤ
deriving DecidableEq, Repr

/-- `DspFilters_Limiter` from `dsp_filters.c` (textually identical to
`limiter_process_s24` in the legacy `app_dsp.c`): stereo-linked peak
detection against `AUDIO_LIMITER_THRESH_S24 = 6500000`, instant attack,
`AUDIO_LIMITER_RELEASE_Q15 = 16` smoothed release, shared gain applied to
both channels.  `(thresh << 15) / peak` is a positive 64-bit division. -/
def DspFilters_Limiter (s : LimiterState) (l r : ℤ) : LimiterState × ℤ × ℤ :=
  let a := abs_s32 l
  let b := abs_s32 r
  let peak := if a > b then a else b
  let target :=
    if peak > 6500000 then
      let t := (6500000 * 32768 : ℤ) / peak
      let t1 := if t < 0 then 0 else t
      if t1 > 32768 then 32768 else t1
    else 32768
  let g0 := s.gain_q15
  let g :=
    if target < g0 then target
    else
      let g1 := g0 + sar (16 * (target - g0)) 15
      if g1 > 32768 then 32768 else g1
  (⟨g⟩, clamp_s24 (sar (l * g) 15), clamp_s24 (sar (r * g) 15))

/-- Specification-side form of the limiter's target gain:
`threshold / peak` in Q15, clamped to `[0, 32768]`, when the stereo-linked
peak `max |l| |r|` exceeds the threshold; unity otherwise. -/
def limiterTargetSpec (l r : ℤ) : ℤ :=
  if max |l| |r| > 6500000 then min 32768 (max 0 ((6500000 * 32768 : ℤ) / max |l| |r|))
  else 32768

/-- Specification-side form of the gain update: instant attack to the
target when it is below the stored gain, otherwise the smoothed release
step capped at unity. -/
def limiterGainSpec (g l r : ℤ) : ℤ :=
  let tgt := limiterTargetSpec l r
  if tgt < g then tgt else min 32768 (g + sar (16 * (tgt - g)) 15)

theorem abs_s32_eq (x : ℤ) : abs_s32 x = |x| := by
  unfold abs_s32
  rcases le_or_lt 0 x with h | h
  · rw [if_pos h, abs_of_nonneg h]
  · rw [if_neg (by omega), abs_of_neg h]

theorem ite_gt_eq_max (a b : ℤ) : (if a > b then a else b) = max a b := by
  rcases le_or_lt a b with h | h
  · rw [if_neg (by omega), max_eq_right h]
  · rw [if_pos h, max_eq_left (by omega)]

theorem ite_clamp_eq_minmax (t : ℤ) :
    (if (if t < 0 then (0 : ℤ) else t) > 32768 then 32768 else if t < 0 then 0 else t) =
      min 32768 (max 0 t) := by
  split_ifs <;> omega

theorem ite_cap_eq_min (x : ℤ) :
    (if x > (32768 : ℤ) then 32768 else x) = min 32768 x := by
  split_ifs <;> omega

/-- The limiter as a whole equals its specification-side description. -/
theorem limiter_eq_spec (g l r : ℤ) :
    DspFilters_Limiter ⟨g⟩ l r =
      (⟨limiterGainSpec g l r⟩,
       clamp_s24 (sar (l * limiterGainSpec g l r) 15),
       clamp_s24 (sar (r * limiterGainSpec g l r) 15)) := by
  simp only [DspFilters_Limiter, limiterGainSpec, limiterTargetSpec, abs_s32_eq,
    ite_gt_eq_max, ite_clamp_eq_minmax, ite_cap_eq_min]

/-- Claim C2: `DspFilters_Limiter` computes the stereo-linked peak
`max |l| |r|`; above the threshold `6500000` the target gain is
`threshold/peak` in Q15 clamped to `[0, 32768]` and is applied in the same
call (instant attack: the stored gain drops to the target whenever the
target is below it), otherwise the gain recovers toward unity via the
smoothed release; the single shared gain is applied identically to both
channels, the stored gain stays in `[0, 32768]`, and both outputs lie in
the saturated sample range no matter how large the inputs are. -/
theorem C2_limiter (g l r : ℤ) (hg0 : 0 ≤ g) (hg1 : g ≤ 32768) :
    (0 ≤ limiterTargetSpec l r ∧ limiterTargetSpec l r ≤ 32768) ∧
    (limiterTargetSpec l r < g →
      (DspFilters_Limiter ⟨g⟩ l r).1.gain_q15 = limiterTargetSpec l r) ∧
    (g ≤ limiterTargetSpec l r →
      (DspFilters_Limiter ⟨g⟩ l r).1.gain_q15 =
        min 32768 (g + sar (16 * (limiterTargetSpec l r - g)) 15)) ∧
    (0 ≤ (DspFilters_Limiter ⟨g⟩ l r).1.gain_q15 ∧
      (DspFilters_Limiter ⟨g⟩ l r).1.gain_q15 ≤ 32768) ∧
    (DspFilters_Limiter ⟨g⟩ l r).2.1 =
      clamp_s24 (sar (l * (DspFilters_Limiter ⟨g⟩ l r).1.gain_q15) 15) ∧
    (DspFilters_Limiter ⟨g⟩ l r).2.2 =
      clamp_s24 (sar (r * (DspFilters_Limiter ⟨g⟩ l r).1.gain_q15) 15) ∧
    inS24 (DspFilters_Limiter ⟨g⟩ l r).2.1 ∧
    inS24 (DspFilters_Limiter ⟨g⟩ l r).2.2 := by
  have htgt : 0 ≤ limiterTargetSpec l r ∧ limiterTargetSpec l r ≤ 32768 := by
    unfold limiterTargetSpec
    split <;> omega
  rw [limiter_eq_spec]
  refine ⟨htgt, ?_, ?_, ?_, rfl, rfl, clamp_s24_mem _, clamp_s24_mem _⟩
  · intro h
    unfold limiterGainSpec
    rw [if_pos h]
  · intro h
    unfold limiterGainSpec
    rw [if_neg (by omega)]
  · dsimp only
    simp only [limiterGainSpec]
    split
    · omega
    · have hrel : 0 ≤ sar (16 * (limiterTargetSpec l r - g)) 15 :=
        sar_nonneg (by omega) 15
      exact ⟨le_min (by norm_num) (by omega), min_le_left _ _⟩

/-- Witness for C2: inputs far above the threshold from unity gain. -/
theorem C2_limiter_witness :
    inS24 (DspFilters_Limiter ⟨32768⟩ 8000000 (-8000000) : LimiterState × ℤ × ℤ).2.1 ∧
    inS24 (DspFilters_Limiter ⟨32768⟩ 8000000 (-8000000) : LimiterState × ℤ × ℤ).2.2 := by
  have h := C2_limiter 32768 8000000 (-8000000) (by norm_num) (by norm_num)
  exact ⟨h.2.2.2.2.2.2.1, h.2.2.2.2.2.2.2⟩

/-! ### Remaining filter primitives (`dsp_filters.c`) and distortion
(`dsp_distortion.c`), needed for the frame pipeline -/

/-- `DcBlockState` from `dsp_filters.h` (also used by every 1st-order HPF). -/
structure DcBlockState where
  x1 : ℤ
  y1 : ℤ
deriving DecidableEq, Repr

/-- `DspFilters_DcBlock`: `y = x - x1 + (32684*y1 >> 15)`; the *unclamped*
`y` is stored back into the state, the clamped value is returned. -/
def DspFilters_DcBlock (st : DcBlockState) (x : ℤ) : DcBlockState × ℤ :=
  let y := x - st.x1 + sar (32684 * st.y1) 15
  (⟨x, y⟩, clamp_s24 y)

/-- `DspFilters_Hpf1`: generic first-order HPF with caller-supplied `R`. -/
def DspFilters_Hpf1 (st : DcBlockState) (x r_q15 : ℤ) : DcBlockState × ℤ :=
  let y := x - st.x1 + sar (r_q15 * st.y1) 15
  (⟨x, y⟩, clamp_s24 y)

/-- `CompState` from `dsp_filters.h`. -/
structure CompState where
  env : ℤ
  gain_q15 : ℤ
deriving DecidableEq, Repr

/-- `DspFilters_CompressOne` from `dsp_filters.c` with the compile-time
constants `THRESH = 3000000`, `RATIO = 2`, envelope attack/release
`4096`/`256`, gain attack/release `8192`/`512`.  The divisions
`over / 2` and `(out_env << 15) / env` have nonnegative operands. -/
def DspFilters_CompressOne (st : CompState) (x_s24 : ℤ) : CompState × ℤ :=
  let x := abs_s32 x_s24
  let diff := x - st.env
  let k_env : ℤ := if diff > 0 then 4096 else 256
  let env1 := st.env + sar (k_env * diff) 15
  let env := if env1 < 0 then 0 else env1
  let target :=
    if env > 3000000 then
      let over := env - 3000000
      let out_env := 3000000 + over / 2
      let t := (out_env * 32768) / env
      let t1 := if t < 0 then 0 else t
      if t1 > 32768 then 32768 else t1
    else 32768
  let gd := target - st.gain_q15
  let k_g : ℤ := if gd < 0 then 8192 else 512
  let g1 := st.gain_q15 + sar (k_g * gd) 15
  let g2 := if g1 < 0 then 0 else g1
  let g := if g2 > 32768 then 32768 else g2
  (⟨env, g⟩, clamp_s24 (sar (x_s24 * g) 15))

/-- `BiquadState` from `dsp_filters.h`. -/
structure BiquadState where
  x1 : ℤ
  x2 : ℤ
  y1 : ℤ
  y2 : ℤ
deriving DecidableEq, Repr

/-- `DspFilters_CabSim`: Q28 biquad with the cabinet coefficients,
64-bit accumulator, output clamped and fed back into `y1`. -/
def DspFilters_CabSim (st : BiquadState) (x : ℤ) : BiquadState × ℤ :=
  let acc := 19407624 * x + 38815248 * st.x1 + 19407624 * st.x2
      - (-297323915) * st.y1 - 106689359 * st.y2
  let y := clamp_s24 (sar acc 28)
  (⟨x, st.x1, y, st.y1⟩, y)

/-- `DistState` from `dsp_distortion.h`. -/
structure DistState where
  hp_x1 : ℤ
  hp_y1 : ℤ
  lp_y1 : ℤ
  os_x1 : ℤ
deriving DecidableEq, Repr

/-- `hard_tube_clip_s24` from `dsp_distortion.c`: asymmetric soft-knee clip,
excess compressed by `>> 10`. -/
def hard_tube_clip_s24 (x : ℤ) : ℤ :=
  if x > 1200000 then 1200000 + sar (x - 1200000) 10
  else if x < -900000 then -900000 + sar (x + 900000) 10
  else x

/-- `DspDistortion_Process` from `dsp_distortion.c` with the runtime drive
parameter `s_dist_drive_q8` passed explicitly. -/
def DspDistortion_Process (drive_q8 : ℤ) (st : DistState) (x : ℤ) : DistState × ℤ :=
  let hp_y := x - st.hp_x1 + sar (32113 * st.hp_y1) 15
  let d24 := sar (hp_y * drive_q8) 8
  let d24_mid := sar (d24 + st.os_x1) 1
  let y0 := hard_tube_clip_s24 (clamp_s24 d24)
  let y1 := hard_tube_clip_s24 (clamp_s24 d24_mid)
  let y24 := sar (y0 + y1) 1
  let lp := st.lp_y1 + sar (12000 * (y24 - st.lp_y1)) 15
  let yl := sar (lp * 256) 8
  (⟨x, hp_y, lp, d24⟩, clamp_s24 yl)

/-! ### Orchestrator state (`app_dsp.c` statics) and control API -/

/-- `AppFxMode` from `app_dsp.h`. -/
inductive AppFxMode where
  | bypass
  | distortion
  | reverb
  | delay
  | all
deriving DecidableEq, Repr

/-- `AppDspParamId` from `app_dsp.h`. -/
inductive AppDspParamId where
  | distDriveQ8
  | delayMixQ15
  | delayFeedbackQ15
  | reverbMixQ15
  | reverbFeedbackQ15
  | reverbDampQ15
  | gainQ15
deriving DecidableEq, Repr

/-- The complete mutable state of the DSP core: every `static` variable of
`app_dsp.c`, `dsp_filters.c`, `dsp_distortion.c`, `dsp_delay.c` and
`dsp_reverb.c` that the control and frame operations touch. -/
structure AppState where
  mode : AppFxMode
  button_last_ms : ℕ
  fx_mask : ℕ
  gain_q15 : ℤ
  dist_drive_q8 : ℤ
  delay_mix_q15 : ℤ
  delay_feedback_q15 : ℤ
  reverb_mix_q15 : ℤ
  reverb_feedback_q15 : ℤ
  reverb_damp_q15 : ℤ
  limiter : LimiterState
  dc_l : DcBlockState
  dc_r : DcBlockState
  clean_hpf_l : DcBlockState
  clean_hpf_r : DcBlockState
  wet_hpf_delay_l : DcBlockState
  wet_hpf_delay_r : DcBlockState
  wet_hpf_reverb_l : DcBlockState
  wet_hpf_reverb_r : DcBlockState
  comp_l : CompState
  comp_r : CompState
  cab_l : BiquadState
  cab_r : BiquadState
  wet_lpf_delay_l : ℤ
  wet_lpf_delay_r : ℤ
  wet_lpf_reverb_l : ℤ
  wet_lpf_reverb_r : ℤ
  dist_l : DistState
  dist_r : DistState
  delay_buf_l : ℕ → ℤ
  delay_buf_r : ℕ → ℤ
  delay_l : DelayState
  delay_r : DelayState
  reverb_l : ReverbState
  reverb_r : ReverbState

/-- The state at program startup: every static initializer of the five
translation units (runtime parameters at their documented defaults, all
filter/effect state zero, limiter and compressor gains at unity). -/
def appStartup : AppState where
  mode := AppFxMode.bypass
  button_last_ms := 0
  fx_mask := 0
  gain_q15 := 32768
  dist_drive_q8 := 40960
  delay_mix_q15 := 11469
  delay_feedback_q15 := 16384
  reverb_mix_q15 := 9830
  reverb_feedback_q15 := 22000
  reverb_damp_q15 := 8192
  limiter := ⟨32768⟩
  dc_l := ⟨0, 0⟩
  dc_r := ⟨0, 0⟩
  clean_hpf_l := ⟨0, 0⟩
  clean_hpf_r := ⟨0, 0⟩
  wet_hpf_delay_l := ⟨0, 0⟩
  wet_hpf_delay_r := ⟨0, 0⟩
  wet_hpf_reverb_l := ⟨0, 0⟩
  wet_hpf_reverb_r := ⟨0, 0⟩
  comp_l := ⟨0, 32768⟩
  comp_r := ⟨0, 32768⟩
  cab_l := ⟨0, 0, 0, 0⟩
  cab_r := ⟨0, 0, 0, 0⟩
  wet_lpf_delay_l := 0
  wet_lpf_delay_r := 0
  wet_lpf_reverb_l := 0
  wet_lpf_reverb_r := 0
  dist_l := ⟨0, 0, 0, 0⟩
  dist_r := ⟨0, 0, 0, 0⟩
  delay_buf_l := fun _ => 0
  delay_buf_r := fun _ => 0
  delay_l := delayState0
  delay_r := delayState0
  reverb_l := reverbState0
  reverb_r := reverbState0

/-- `AppDsp_Init` from the modular `app_dsp.c`: calls `DspFilters_Init`,
`DspDistortion_Init`, `DspDelay_Init` and `DspReverb_Init` (which zero all
filter/delay/reverb state and reset the limiter/compressor gains), then
resets mode, debounce timestamp, FX mask and master gain.  The six effect
parameters (`s_dist_drive_q8`, `s_delay_mix_q15`, `s_delay_feedback_q15`,
`s_reverb_mix_q15`, `s_reverb_feedback_q15`, `s_reverb_damp_q15`) are not
touched by any of the init routines. -/
def AppDsp_Init (s : AppState) : AppState :=
  { s with
    mode := AppFxMode.bypass
    button_last_ms := 0
    fx_mask := 0
    gain_q15 := 32768
    limiter := ⟨32768⟩
    dc_l := ⟨0, 0⟩
    dc_r := ⟨0, 0⟩
    clean_hpf_l := ⟨0, 0⟩
    clean_hpf_r := ⟨0, 0⟩
    wet_hpf_delay_l := ⟨0, 0⟩
    wet_hpf_delay_r := ⟨0, 0⟩
    wet_hpf_reverb_l := ⟨0, 0⟩
    wet_hpf_reverb_r := ⟨0, 0⟩
    comp_l := ⟨0, 32768⟩
    comp_r := ⟨0, 32768⟩
    cab_l := ⟨0, 0, 0, 0⟩
    cab_r := ⟨0, 0, 0, 0⟩
    wet_lpf_delay_l := 0
    wet_lpf_delay_r := 0
    wet_lpf_reverb_l := 0
    wet_lpf_reverb_r := 0
    dist_l := ⟨0, 0, 0, 0⟩
    dist_r := ⟨0, 0, 0, 0⟩
    delay_buf_l := fun _ => 0
    delay_buf_r := fun _ => 0
    delay_l := delayState0
    delay_r := delayState0
    reverb_l := reverbState0
    reverb_r := reverbState0 }

/-- `DspDistortion_SetDrive`: clamp to `[0, 131072]`. -/
def DspDistortion_SetDrive (v : ℤ) (s : AppState) : AppState :=
  { s with dist_drive_q8 := if v < 0 then 0 else if v > 131072 then 131072 else v }

/-- Clamp to the nominal Q15 range `[0, 32768]` (`clamp_q15` in the legacy
`app_dsp.c`; each module setter repeats the same two comparisons). -/
def clamp_q15 (x : ℤ) : ℤ := if x < 0 then 0 else if x > 32768 then 32768 else x

/-- `DspDelay_SetMix`. -/
def DspDelay_SetMix (v : ℤ) (s : AppState) : AppState :=
  { s with delay_mix_q15 := clamp_q15 v }

/-- `DspDelay_SetFeedback`. -/
def DspDelay_SetFeedback (v : ℤ) (s : AppState) : AppState :=
  { s with delay_feedback_q15 := clamp_q15 v }

/-- `DspReverb_SetMix`. -/
def DspReverb_SetMix (v : ℤ) (s : AppState) : AppState :=
  { s with reverb_mix_q15 := clamp_q15 v }

/-- `DspReverb_SetFeedback`. -/
def DspReverb_SetFeedback (v : ℤ) (s : AppState) : AppState :=
  { s with reverb_feedback_q15 := clamp_q15 v }

/-- `DspReverb_SetDamp`. -/
def DspReverb_SetDamp (v : ℤ) (s : AppState) : AppState :=
  { s with reverb_damp_q15 := clamp_q15 v }

/-- `AppDsp_SetParam` from `app_dsp.c`: route to the module setter; the
master gain is clamped to `[0, 65536]` in place. -/
def AppDsp_SetParam (id : AppDspParamId) (v : ℤ) (s : AppState) : AppState :=
  match id with
  | AppDspParamId.distDriveQ8 => DspDistortion_SetDrive v s
  | AppDspParamId.delayMixQ15 => DspDelay_SetMix v s
  | AppDspParamId.delayFeedbackQ15 => DspDelay_SetFeedback v s
  | AppDspParamId.reverbMixQ15 => DspReverb_SetMix v s
  | AppDspParamId.reverbFeedbackQ15 => DspReverb_SetFeedback v s
  | AppDspParamId.reverbDampQ15 => DspReverb_SetDamp v s
  | AppDspParamId.gainQ15 =>
      { s with gain_q15 := if v < 0 then 0 else if v > 65536 then 65536 else v }

/-- `AppDsp_GetParam` from `app_dsp.c`. -/
def AppDsp_GetParam (id : AppDspParamId) (s : AppState) : ℤ :=
  match id with
  | AppDspParamId.distDriveQ8 => s.dist_drive_q8
  | AppDspParamId.delayMixQ15 => s.delay_mix_q15
  | AppDspParamId.delayFeedbackQ15 => s.delay_feedback_q15
  | AppDspParamId.reverbMixQ15 => s.reverb_mix_q15
  | AppDspParamId.reverbFeedbackQ15 => s.reverb_feedback_q15
  | AppDspParamId.reverbDampQ15 => s.reverb_damp_q15
  | AppDspParamId.gainQ15 => s.gain_q15

/-- The exact legacy FX mask for each mode
(`APP_FX_BIT_DISTORTION = 1`, `APP_FX_BIT_REVERB = 2`,
`APP_FX_BIT_DELAY = 4`), as assigned by `AppDsp_OnButtonPress`. -/
def maskForMode : AppFxMode → ℕ
  | AppFxMode.bypass => 0
  | AppFxMode.distortion => 1
  | AppFxMode.reverb => 2
  | AppFxMode.delay => 4
  | AppFxMode.all => 7

/-- The successor in the button cycle
`bypass → distortion → reverb → delay → all → bypass`
(the C `switch` maps `ALL` through its `default:` arm to `BYPASS`). -/
def nextMode : AppFxMode → AppFxMode
  | AppFxMode.bypass => AppFxMode.distortion
  | AppFxMode.distortion => AppFxMode.reverb
  | AppFxMode.reverb => AppFxMode.delay
  | AppFxMode.delay => AppFxMode.all
  | AppFxMode.all => AppFxMode.bypass

/-- `uint32_t` wraparound subtraction `a - b` (both operands reduced to
32 bits first, matching the C unsigned arithmetic). -/
def sub_u32 (a b : ℕ) : ℕ :=
  (a % 4294967296 + 4294967296 - b % 4294967296) % 4294967296

/-- `AppDsp_OnButtonPress` from `app_dsp.c`: 300 ms debounce via unsigned
subtraction against the stored last-accepted timestamp, then advance the
mode through the fixed cycle and recompute the exact legacy mask. -/
def AppDsp_OnButtonPress (now_ms : ℕ) (s : AppState) : AppState :=
  if sub_u32 now_ms s.button_last_ms < 300 then s
  else
    let m := nextMode s.mode
    { s with button_last_ms := now_ms % 4294967296, mode := m,
             fx_mask := maskForMode m }

/-- `AppDsp_GetMode`. -/
def AppDsp_GetMode (s : AppState) : AppFxMode := s.mode

/-- `AppDsp_SetFxMask` from `app_dsp.c`: sanitize to the three defined FX
bits, store, and recompute the legacy mode from the sanitized mask. -/
def AppDsp_SetFxMask (mask : ℕ) (s : AppState) : AppState :=
  let m := mask &&& 7
  { s with fx_mask := m,
           mode :=
             if m = 0 then AppFxMode.bypass
             else if m = 1 then AppFxMode.distortion
             else if m = 2 then AppFxMode.reverb
             else if m = 4 then AppFxMode.delay
             else AppFxMode.all }

/-- `AppDsp_GetFxMask`. -/
def AppDsp_GetFxMask (s : AppState) : ℕ := s.fx_mask

/-! ### Claims C3, C4, C5, C9, C10 -/

/-- The documented default for each runtime parameter (spec §6). -/
def paramDefault : AppDspParamId → ℤ
  | AppDspParamId.distDriveQ8 => 40960
  | AppDspParamId.delayMixQ15 => 11469
  | AppDspParamId.delayFeedbackQ15 => 16384
  | AppDspParamId.reverbMixQ15 => 9830
  | AppDspParamId.reverbFeedbackQ15 => 22000
  | AppDspParamId.reverbDampQ15 => 8192
  | AppDspParamId.gainQ15 => 32768

/-- Counterexample to Claim C3: change `delayMixQ15` from its default to
`0`, call `AppDsp_Init` again, and read the parameter back — it stays `0`
instead of returning to the documented default `11469`, because none of the
init routines touches the six effect-parameter statics. -/
theorem C3_init_counterexample :
    AppDsp_GetParam AppDspParamId.delayMixQ15
        (AppDsp_Init (AppDsp_SetParam AppDspParamId.delayMixQ15 0 appStartup)) = 0 ∧
    (0 : ℤ) ≠ 11469 := by
  constructor
  · rfl
  · decide

/-- Claim C3 (amended): `AppDsp_Init` zeroes all filter, delay and reverb
state, resets mask/mode/debounce and the master gain to their defaults, but
leaves the six effect parameters (`distDriveQ8`, `delayMixQ15`,
`delayFeedbackQ15`, `reverbMixQ15`, `reverbFeedbackQ15`, `reverbDampQ15`)
unchanged; those six read back their documented defaults only in the
startup state (before any `AppDsp_SetParam`), so re-initialisation after a
parameter change does not restore the documented default. -/
theorem C3_init_resets_state_not_params (s : AppState) :
    (AppDsp_Init s).mode = AppFxMode.bypass ∧
    (AppDsp_Init s).fx_mask = 0 ∧
    (AppDsp_Init s).button_last_ms = 0 ∧
    (AppDsp_Init s).gain_q15 = 32768 ∧
    (AppDsp_Init s).limiter = ⟨32768⟩ ∧
    (AppDsp_Init s).dc_l = ⟨0, 0⟩ ∧ (AppDsp_Init s).dc_r = ⟨0, 0⟩ ∧
    (AppDsp_Init s).clean_hpf_l = ⟨0, 0⟩ ∧ (AppDsp_Init s).clean_hpf_r = ⟨0, 0⟩ ∧
    (AppDsp_Init s).wet_hpf_delay_l = ⟨0, 0⟩ ∧ (AppDsp_Init s).wet_hpf_delay_r = ⟨0, 0⟩ ∧
    (AppDsp_Init s).wet_hpf_reverb_l = ⟨0, 0⟩ ∧ (AppDsp_Init s).wet_hpf_reverb_r = ⟨0, 0⟩ ∧
    (AppDsp_Init s).comp_l = ⟨0, 32768⟩ ∧ (AppDsp_Init s).comp_r = ⟨0, 32768⟩ ∧
    (AppDsp_Init s).cab_l = ⟨0, 0, 0, 0⟩ ∧ (AppDsp_Init s).cab_r = ⟨0, 0, 0, 0⟩ ∧
    (AppDsp_Init s).wet_lpf_delay_l = 0 ∧ (AppDsp_Init s).wet_lpf_delay_r = 0 ∧
    (AppDsp_Init s).wet_lpf_reverb_l = 0 ∧ (AppDsp_Init s).wet_lpf_reverb_r = 0 ∧
    (AppDsp_Init s).dist_l = ⟨0, 0, 0, 0⟩ ∧ (AppDsp_Init s).dist_r = ⟨0, 0, 0, 0⟩ ∧
    (AppDsp_Init s).delay_buf_l = (fun _ => 0) ∧
    (AppDsp_Init s).delay_buf_r = (fun _ => 0) ∧
    (AppDsp_Init s).delay_l = delayState0 ∧ (AppDsp_Init s).delay_r = delayState0 ∧
    (AppDsp_Init s).reverb_l = reverbState0 ∧ (AppDsp_Init s).reverb_r = reverbState0 ∧
    (AppDsp_Init s).dist_drive_q8 = s.dist_drive_q8 ∧
    (AppDsp_Init s).delay_mix_q15 = s.delay_mix_q15 ∧
    (AppDsp_Init s).delay_feedback_q15 = s.delay_feedback_q15 ∧
    (AppDsp_Init s).reverb_mix_q15 = s.reverb_mix_q15 ∧
    (AppDsp_Init s).reverb_feedback_q15 = s.reverb_feedback_q15 ∧
    (AppDsp_Init s).reverb_damp_q15 = s.reverb_damp_q15 ∧
    (∀ id, AppDsp_GetParam id (AppDsp_Init appStartup) = paramDefault id) := by
  refine ⟨rfl, rfl, rfl, rfl, rfl, rfl, rfl, rfl, rfl, rfl, rfl, rfl, rfl, rfl,
    rfl, rfl, rfl, rfl, rfl, rfl, rfl, rfl, rfl, rfl, rfl, rfl, rfl, rfl, rfl,
    rfl, rfl, rfl, rfl, rfl, rfl, ?_⟩
  intro id
  cases id <;> rfl

/-- Claim C4: for every parameter identifier and every value `v`,
`AppDsp_SetParam` followed by `AppDsp_GetParam` returns `v` clamped into
the identifier's documented range (`[0, 131072]` for `distDriveQ8`,
`[0, 32768]` for the five Q15 effect parameters, `[0, 65536]` for
`gainQ15`); out-of-range sets are silently clamped, never rejected. -/
theorem C4_param_set_get_clamp (id : AppDspParamId) (v : ℤ) (s : AppState) :
    AppDsp_GetParam id (AppDsp_SetParam id v s) =
      min (match id with
           | AppDspParamId.distDriveQ8 => 131072
           | AppDspParamId.gainQ15 => 65536
           | _ => 32768)
          (max 0 v) := by
  cases id <;>
    simp only [AppDsp_SetParam, AppDsp_GetParam, DspDistortion_SetDrive,
      DspDelay_SetMix, DspDelay_SetFeedback, DspReverb_SetMix,
      DspReverb_SetFeedback, DspReverb_SetDamp, clamp_q15] <;>
    split_ifs <;> omega

/-- Claim C5: each legacy mode round-trips through
`AppDsp_SetFxMask`/`AppDsp_GetMode`; an accepted button press advances the
mode through the fixed cycle and recomputes the exact mask; and with
wraparound-safe unsigned timestamp subtraction, presses at `t` and `t+299`
produce only one mode change while presses at `t` and `t+300` produce
two. -/
theorem C5_mode_cycle_debounce (s : AppState) (m : AppFxMode) (t : ℕ)
    (hacc : 300 ≤ sub_u32 t s.button_last_ms) :
    AppDsp_GetMode (AppDsp_SetFxMask (maskForMode m) s) = m ∧
    (AppDsp_OnButtonPress t s).mode = nextMode s.mode ∧
    (AppDsp_OnButtonPress t s).fx_mask = maskForMode (nextMode s.mode) ∧
    AppDsp_OnButtonPress (t + 299) (AppDsp_OnButtonPress t s) =
      AppDsp_OnButtonPress t s ∧
    (AppDsp_OnButtonPress (t + 300) (AppDsp_OnButtonPress t s)).mode =
      nextMode (nextMode s.mode) := by
  have hround : AppDsp_GetMode (AppDsp_SetFxMask (maskForMode m) s) = m := by
    cases m <;> rfl
  have hs1 : AppDsp_OnButtonPress t s =
      { s with button_last_ms := t % 4294967296, mode := nextMode s.mode,
               fx_mask := maskForMode (nextMode s.mode) } := by
    unfold AppDsp_OnButtonPress
    rw [if_neg (by omega)]
  have hsub299 : sub_u32 (t + 299) (t % 4294967296) = 299 := by
    unfold sub_u32
    omega
  have hsub300 : sub_u32 (t + 300) (t % 4294967296) = 300 := by
    unfold sub_u32
    omega
  refine ⟨hround, by rw [hs1], by rw [hs1], ?_, ?_⟩
  · rw [hs1]
    unfold AppDsp_OnButtonPress
    rw [if_pos (by simp only [hsub299]; omega)]
  · rw [hs1]
    unfold AppDsp_OnButtonPress
    rw [if_neg (by simp only [hsub300]; omega)]

/-- Witness for C5: from the startup state with an accepted press at
`t = 1000` ms. -/
theorem C5_mode_cycle_debounce_witness :
    AppDsp_GetMode (AppDsp_SetFxMask (maskForMode AppFxMode.delay) appStartup) =
      AppFxMode.delay ∧
    (AppDsp_OnButtonPress 1000 appStartup).mode = AppFxMode.distortion ∧
    AppDsp_OnButtonPress 1299 (AppDsp_OnButtonPress 1000 appStartup) =
      AppDsp_OnButtonPress 1000 appStartup ∧
    (AppDsp_OnButtonPress 1300 (AppDsp_OnButtonPress 1000 appStartup)).mode =
      AppFxMode.reverb := by
  have h := C5_mode_cycle_debounce appStartup AppFxMode.delay 1000 (by decide)
  exact ⟨h.1, h.2.1, h.2.2.2.1, h.2.2.2.2⟩

/-- Claim C9: `AppDsp_SetFxMask` stores only the three defined FX bits
(`1 = distortion`, `2 = reverb`, `4 = delay`): `AppDsp_GetFxMask` then
returns `m &&& 7`, other bits are silently discarded, and the legacy mode
is recomputed from the sanitized mask with any two-or-more-bit mask mapping
to `all`. -/
theorem C9_mask_sanitized (s : AppState) (m : ℕ) :
    AppDsp_GetFxMask (AppDsp_SetFxMask m s) = m &&& 7 ∧
    (AppDsp_SetFxMask m s).mode =
      (if m &&& 7 = 0 then AppFxMode.bypass
       else if m &&& 7 = 1 then AppFxMode.distortion
       else if m &&& 7 = 2 then AppFxMode.reverb
       else if m &&& 7 = 4 then AppFxMode.delay
       else AppFxMode.all) ∧
    (2 ≤ (m &&& 1) + ((m >>> 1) &&& 1) + ((m >>> 2) &&& 1) →
      (AppDsp_SetFxMask m s).mode = AppFxMode.all) := by
  refine ⟨rfl, rfl, ?_⟩
  intro hbits
  have hmod : m &&& 7 = m % 8 := Nat.and_pow_two_sub_one_eq_mod m 3
  have hb0 : m &&& 1 = m % 2 := Nat.and_pow_two_sub_one_eq_mod m 1
  have hb1 : (m >>> 1) &&& 1 = (m / 2) % 2 := by
    have hdiv : m >>> 1 = m / 2 := by rw [Nat.shiftRight_eq_div_pow, pow_one]
    rw [hdiv]
    exact Nat.and_pow_two_sub_one_eq_mod _ 1
  have hb2 : (m >>> 2) &&& 1 = (m / 4) % 2 := by
    have hdiv : m >>> 2 = m / 4 := by rw [Nat.shiftRight_eq_div_pow]
    rw [hdiv]
    exact Nat.and_pow_two_sub_one_eq_mod _ 1
  rw [hb0, hb1, hb2] at hbits
  show (if m &&& 7 = 0 then AppFxMode.bypass
        else if m &&& 7 = 1 then AppFxMode.distortion
        else if m &&& 7 = 2 then AppFxMode.reverb
        else if m &&& 7 = 4 then AppFxMode.delay
        else AppFxMode.all) = AppFxMode.all
  rw [hmod]
  split_ifs with c0 c1 c2 c4
  · exact absurd hbits (by omega)
  · exact absurd hbits (by omega)
  · exact absurd hbits (by omega)
  · exact absurd hbits (by omega)
  · rfl

/-- Claim C10: immediately after `AppDsp_Init` the stored last-accepted
trigger timestamp is `0`, so a first `AppDsp_OnButtonPress` with `t < 300`
is debounced away, leaving the whole state (in particular mode and FX mask)
unchanged, even though no earlier press was ever accepted. -/
theorem C10_first_press_debounced (s : AppState) (t : ℕ) (ht : t < 300) :
    (AppDsp_Init s).button_last_ms = 0 ∧
    AppDsp_OnButtonPress t (AppDsp_Init s) = AppDsp_Init s := by
  refine ⟨rfl, ?_⟩
  have hc : sub_u32 t (AppDsp_Init s).button_last_ms < 300 := by
    show sub_u32 t 0 < 300
    unfold sub_u32
    omega
  unfold AppDsp_OnButtonPress
  rw [if_pos hc]

/-- Witness for C10: a press at `t = 299` right after init. -/
theorem C10_first_press_debounced_witness :
    AppDsp_OnButtonPress 299 (AppDsp_Init appStartup) = AppDsp_Init appStartup :=
  (C10_first_press_debounced appStartup 299 (by decide)).2

/-! ### Claim C7 -/

/-- The delay-line tap read of `DspReverb_Process` (LFO offset, masked
fractional tap with linear interpolation), factored out of the embedding for
stating where the tap flows. -/
def reverbTapRead (s : ReverbState) (lfo_step : ℕ) : ℤ :=
  let lf := triangle_lfo_offset_q8 s.lfo lfo_step 0
  let mod_i := sar lf.2 8
  let frac : ℤ := lf.2 % 256
  let ri0 : ℕ := (((s.delay_idx : ℤ) + mod_i + 2048) % 2048).toNat
  let ri1 : ℕ := (ri0 + 1) % 2048
  s.delay ri0 + sar ((s.delay ri1 - s.delay ri0) * frac) 8

/-- Modelled from the spec (§4.5 step 4: "Pass the *pre-feedback* damped tap
through two allpass stages in series"): a variant of `DspReverb_Process`
that is identical except that the two allpass diffusion stages receive the
damped tap `lpv` instead of the raw tap `d`.  This is what Claim C7 asserts
the code does; it is used only to refute that claim. -/
def reverbProcessSpecDamped (feedback_q15 damp_q15 x : ℤ) (s : ReverbState)
    (lfo_step : ℕ) : ReverbState × ℤ :=
  let i := s.delay_idx
  let lf := triangle_lfo_offset_q8 s.lfo lfo_step 0
  let mod_q8 := lf.2
  let mod_i := sar mod_q8 8
  let frac : ℤ := mod_q8 % 256
  let ri0 : ℕ := (((i : ℤ) + mod_i + 2048) % 2048).toNat
  let ri1 : ℕ := (ri0 + 1) % 2048
  let d0 := s.delay ri0
  let d1 := s.delay ri1
  let d := d0 + sar ((d1 - d0) * frac) 8
  let lpv := s.lp + sar (damp_q15 * (d - s.lp)) 15
  let fb := sar (feedback_q15 * lpv) 15
  let delay2 := Function.update s.delay i (clamp_s24 (x + fb))
  let a1 := allpass_process_s24_len lpv s.ap 0 s.ap1_idx 64
  let a2 := allpass_process_s24_len a1.2.2 a1.1 64 s.ap2_idx 64
  ({ delay := delay2, delay_idx := (i + 1) % 2048, lp := lpv,
     ap := a2.1, ap1_idx := a1.2.1, ap2_idx := a2.2.1, lfo := lf.1 },
   a2.2.2)

/-- A concrete reverb state on which the raw tap and the damped tap differ:
the delay line holds `1000000` everywhere and the damping LPF state is `0`,
so with `damp = 8192` (the default) the damped tap is `250000`. -/
def c7State : ReverbState :=
  { delay := fun _ => 1000000, delay_idx := 0, lp := 0,
    ap := fun _ => 0, ap1_idx := 0, ap2_idx := 0, lfo := 0 }

/-- Counterexample to Claim C7: at the default parameters
(`feedback = 22000`, `damp = 8192`, left-channel LFO step `65536`) and the
state `c7State`, the wet output of `DspReverb_Process` differs from the wet
output of the spec-described variant that diffuses the damped tap — so the
value passed through the allpass stages is *not* the damped tap. -/
theorem C7_counterexample :
    (DspReverb_Process 22000 8192 0 c7State 65536).2 ≠
      (reverbProcessSpecDamped 22000 8192 0 c7State 65536).2 := by
  decide

/-- Claim C7 (amended): in `DspReverb_Process` the value passed through the
two series allpass stages (fixed gain `22938` ≈ 0.70 in Q15, circular
buffers with masked wraparound) is the *raw* interpolated tap read `d`
(pre-damping, pre-feedback); the damping low-pass output `lpv` is used only
in the feedback path that is written back into the delay line. -/
theorem C7_allpass_gets_raw_tap (f damp x : ℤ) (s : ReverbState) (lfo_step : ℕ) :
    (DspReverb_Process f damp x s lfo_step).2 =
      (allpass_process_s24_len
        (allpass_process_s24_len (reverbTapRead s lfo_step) s.ap 0 s.ap1_idx 64).2.2
        (allpass_process_s24_len (reverbTapRead s lfo_step) s.ap 0 s.ap1_idx 64).1
        64 s.ap2_idx 64).2.2 ∧
    (DspReverb_Process f damp x s lfo_step).1.lp =
      s.lp + sar (damp * (reverbTapRead s lfo_step - s.lp)) 15 ∧
    (DspReverb_Process f damp x s lfo_step).1.delay s.delay_idx =
      clamp_s24 (x + sar (f * (s.lp + sar (damp * (reverbTapRead s lfo_step - s.lp)) 15)) 15) := by
  refine ⟨rfl, rfl, ?_⟩
  show (Function.update s.delay s.delay_idx _ : ℕ → ℤ) s.delay_idx = _
  rw [Function.update_same]
  rfl

/-! ### Frame pipeline (`AppDsp_ProcessFrame`, modular `app_dsp.c`) and
Claim C8 -/

/-- Pre-FX section of `AppDsp_ProcessFrame` (modular `app_dsp.c`): DC
block, clean HPF (`R = 32384`), input gain (`1536` Q8), per-channel
compressor. -/
def appPreFx (s0 : AppState) (l0 r0 : ℤ) : AppState × ℤ × ℤ :=
  let p1 := DspFilters_DcBlock s0.dc_l l0
  let p2 := DspFilters_DcBlock s0.dc_r r0
  let q1 := DspFilters_Hpf1 s0.clean_hpf_l p1.2 32384
  let q2 := DspFilters_Hpf1 s0.clean_hpf_r p2.2 32384
  let lg := gain_s32_q8 q1.2 1536
  let rg := gain_s32_q8 q2.2 1536
  let c1 := DspFilters_CompressOne s0.comp_l lg
  let c2 := DspFilters_CompressOne s0.comp_r rg
  ({ s0 with dc_l := p1.1, dc_r := p2.1, clean_hpf_l := q1.1,
             clean_hpf_r := q2.1, comp_l := c1.1, comp_r := c2.1 },
   c1.2, c2.2)

/-- Distortion section of `AppDsp_ProcessFrame`: distortion on the
saturated dry signal, then the cabinet-sim biquad. -/
def appDistStage (s : AppState) (l r : ℤ) : AppState × ℤ × ℤ :=
  let d1 := DspDistortion_Process s.dist_drive_q8 s.dist_l (clamp_s24 l)
  let d2 := DspDistortion_Process s.dist_drive_q8 s.dist_r (clamp_s24 r)
  let cb1 := DspFilters_CabSim s.cab_l d1.2
  let cb2 := DspFilters_CabSim s.cab_r d2.2
  ({ s with dist_l := d1.1, dist_r := d2.1, cab_l := cb1.1, cab_r := cb2.1 },
   cb1.2, cb2.2)

/-- Delay section of `AppDsp_ProcessFrame`: delay effect, wet HPF
(`R = 32004`), wet LPF smoothing (`a = 2048`), dry/wet mix with the mix
scaled to 3/4 (C truncating division) when more than one effect is
active. -/
def appDelStage (s : AppState) (l r : ℤ) (fx_count : ℕ) : AppState × ℤ × ℤ :=
  let w1 := DspDelay_Process s.delay_feedback_q15 (clamp_s24 l) s.delay_buf_l s.delay_l
  let w2 := DspDelay_Process s.delay_feedback_q15 (clamp_s24 r) s.delay_buf_r s.delay_r
  let h1 := DspFilters_Hpf1 s.wet_hpf_delay_l w1.2.2 32004
  let h2 := DspFilters_Hpf1 s.wet_hpf_delay_r w2.2.2 32004
  let o1 := onepole_lpf_s24 h1.2 s.wet_lpf_delay_l 2048
  let o2 := onepole_lpf_s24 h2.2 s.wet_lpf_delay_r 2048
  let mix := if fx_count > 1 then Int.tdiv (s.delay_mix_q15 * 3) 4 else s.delay_mix_q15
  ({ s with delay_buf_l := w1.1, delay_l := w1.2.1,
            delay_buf_r := w2.1, delay_r := w2.2.1,
            wet_hpf_delay_l := h1.1, wet_hpf_delay_r := h2.1,
            wet_lpf_delay_l := o1, wet_lpf_delay_r := o2 },
   mix_s24 (clamp_s24 l) o1 mix, mix_s24 (clamp_s24 r) o2 mix)

/-- Reverb section of `AppDsp_ProcessFrame`: reverb effect with the
channel LFO steps `65536`/`77824`, wet HPF, wet LPF smoothing, dry/wet mix
with the mix halved (C truncating division) when more than one effect is
active. -/
def appRevStage (s : AppState) (l r : ℤ) (fx_count : ℕ) : AppState × ℤ × ℤ :=
  let w1 := DspReverb_Process s.reverb_feedback_q15 s.reverb_damp_q15
              (clamp_s24 l) s.reverb_l 65536
  let w2 := DspReverb_Process s.reverb_feedback_q15 s.reverb_damp_q15
              (clamp_s24 r) s.reverb_r 77824
  let h1 := DspFilters_Hpf1 s.wet_hpf_reverb_l w1.2 32004
  let h2 := DspFilters_Hpf1 s.wet_hpf_reverb_r w2.2 32004
  let o1 := onepole_lpf_s24 h1.2 s.wet_lpf_reverb_l 2048
  let o2 := onepole_lpf_s24 h2.2 s.wet_lpf_reverb_r 2048
  let mix := if fx_count > 1 then Int.tdiv s.reverb_mix_q15 2 else s.reverb_mix_q15
  ({ s with reverb_l := w1.1, reverb_r := w2.1,
            wet_hpf_reverb_l := h1.1, wet_hpf_reverb_r := h2.1,
            wet_lpf_reverb_l := o1, wet_lpf_reverb_r := o2 },
   mix_s24 (clamp_s24 l) o1 mix, mix_s24 (clamp_s24 r) o2 mix)

/-- Post-FX section of `AppDsp_ProcessFrame`: makeup gain (`1000` Q8,
scaled to 3/4 when any effect bit is set), master volume, stereo-linked
limiter, final clamp of both outputs. -/
def appPostFx (s : AppState) (l r : ℤ) (mask : ℕ) : AppState × ℤ × ℤ :=
  let makeup_q8 : ℤ := if mask ≠ 0 then Int.tdiv (1000 * 3) 4 else 1000
  let lm := gain_s32_q8 l makeup_q8
  let rm := gain_s32_q8 r makeup_q8
  let lv := clamp_s24 (sar (lm * s.gain_q15) 15)
  let rv := clamp_s24 (sar (rm * s.gain_q15) 15)
  let lim := DspFilters_Limiter s.limiter lv rv
  ({ s with limiter := lim.1 }, clamp_s24 lim.2.1, clamp_s24 lim.2.2)

/-- `AppDsp_ProcessFrame` from the modular `app_dsp.c`: the fixed pipeline
DC block → clean HPF → input gain → compressor → (distortion + cab-sim)?
→ delay? → reverb? → makeup gain → master volume → limiter, with the three
FX sections gated by the mask bits captured at entry. -/
def AppDsp_ProcessFrame (s0 : AppState) (l0 r0 : ℤ) : AppState × ℤ × ℤ :=
  let mask := s0.fx_mask
  let has_dist := mask &&& 1 != 0
  let has_rev := mask &&& 2 != 0
  let has_del := mask &&& 4 != 0
  let fx_count : ℕ :=
    (if has_dist then 1 else 0) + (if has_rev then 1 else 0) + (if has_del then 1 else 0)
  let st1 := appPreFx s0 l0 r0
  let st2 := if has_dist then appDistStage st1.1 st1.2.1 st1.2.2 else st1
  let st3 := if has_del then appDelStage st2.1 st2.2.1 st2.2.2 fx_count else st2
  let st4 := if has_rev then appRevStage st3.1 st3.2.1 st3.2.2 fx_count else st3
  appPostFx st4.1 st4.2.1 st4.2.2 mask

/-- Feed `n` consecutive all-zero stereo frames through the pipeline,
collecting the output frames. -/
def silentFrames : ℕ → AppState → List (ℤ × ℤ)
  | 0, _ => []
  | Nat.succ n, s =>
      let r := AppDsp_ProcessFrame s 0 0
      (r.2.1, r.2.2) :: silentFrames n r.1

/-- The part of the state that the all-zero-input, mask-0 path reads:
bypass mask, unity master gain, zeroed input conditioning filters, unity
compressor and limiter gains.  `AppDsp_Init` establishes it. -/
def SilentInv (s : AppState) : Prop :=
  s.fx_mask = 0 ∧ s.gain_q15 = 32768 ∧
  s.dc_l = ⟨0, 0⟩ ∧ s.dc_r = ⟨0, 0⟩ ∧
  s.clean_hpf_l = ⟨0, 0⟩ ∧ s.clean_hpf_r = ⟨0, 0⟩ ∧
  s.comp_l = ⟨0, 32768⟩ ∧ s.comp_r = ⟨0, 32768⟩ ∧
  s.limiter = ⟨32768⟩

theorem sar_zero (n : ℕ) : sar 0 n = 0 := by
  rw [sar_eq_ediv]
  exact Int.zero_ediv _

theorem clamp_s24_zero : clamp_s24 0 = 0 := rfl

/-- On a silence-invariant state the pre-FX section outputs zeros and only
rewrites the conditioning filters with their existing zero values. -/
theorem appPreFx_silent {s : AppState} (h : SilentInv s) :
    appPreFx s 0 0 =
      ({ s with dc_l := ⟨0, 0⟩, dc_r := ⟨0, 0⟩,
                clean_hpf_l := ⟨0, 0⟩, clean_hpf_r := ⟨0, 0⟩,
                comp_l := ⟨0, 32768⟩, comp_r := ⟨0, 32768⟩ }, 0, 0) := by
  obtain ⟨hm, hg, h1, h2, h3, h4, h5, h6, h7⟩ := h
  have hdc : DspFilters_DcBlock ⟨0, 0⟩ 0 = (⟨0, 0⟩, 0) := by decide
  have hhp : DspFilters_Hpf1 ⟨0, 0⟩ 0 32384 = (⟨0, 0⟩, 0) := by decide
  have hgain : gain_s32_q8 0 1536 = 0 := by decide
  have hcomp : DspFilters_CompressOne ⟨0, 32768⟩ 0 = (⟨0, 32768⟩, 0) := by decide
  unfold appPreFx
  simp only [h1, h2, h3, h4, h5, h6, hdc, hhp, hgain, hcomp]

/-- One all-zero frame on a silence-invariant state outputs exact zeros and
preserves the invariant. -/
theorem processFrame_silent {s : AppState} (h : SilentInv s) :
    (AppDsp_ProcessFrame s 0 0).2.1 = 0 ∧ (AppDsp_ProcessFrame s 0 0).2.2 = 0 ∧
    SilentInv (AppDsp_ProcessFrame s 0 0).1 := by
  have hm := h.1
  have hpre := appPreFx_silent h
  obtain ⟨hm0, hg, h1, h2, h3, h4, h5, h6, h7⟩ := h
  have hgain : gain_s32_q8 0 1000 = 0 := by decide
  have hlim : DspFilters_Limiter ⟨32768⟩ 0 0 = (⟨32768⟩, 0, 0) := by decide
  unfold AppDsp_ProcessFrame
  simp only [hm0, Nat.reduceAnd, bne_self_eq_false, Bool.false_eq_true,
    if_false, hpre]
  unfold appPostFx
  norm_num [hg, hgain, hlim, sar_zero, clamp_s24_zero, SilentInv, hm0, h1,
    h2, h3, h4, h5, h6, h7]

theorem silentInv_init (s : AppState) : SilentInv (AppDsp_Init s) :=
  ⟨rfl, rfl, rfl, rfl, rfl, rfl, rfl, rfl, rfl⟩

theorem silentFrames_replicate (n : ℕ) {s : AppState} (h : SilentInv s) :
    silentFrames n s = List.replicate n (0, 0) := by
  induction n generalizing s with
  | zero => rfl
  | succ k ih =>
      obtain ⟨o1, o2, hnext⟩ := processFrame_silent h
      show ((AppDsp_ProcessFrame s 0 0).2.1, (AppDsp_ProcessFrame s 0 0).2.2) ::
           silentFrames k (AppDsp_ProcessFrame s 0 0).1 = _
      rw [o1, o2, ih hnext]
      rfl

/-- Claim C8: starting from a freshly initialized pipeline with default
parameters (mask 0, bypass), `AppDsp_ProcessFrame` applied to an all-zero
stereo frame yields an exactly all-zero output frame for 10 consecutive
calls (indeed for any number of calls) — the pipeline generates no output
from silence. -/
theorem C8_silence_in_silence_out :
    (∀ n, silentFrames n (AppDsp_Init appStartup) = List.replicate n (0, 0)) ∧
    silentFrames 10 (AppDsp_Init appStartup) = List.replicate 10 (0, 0) :=
  ⟨fun n => silentFrames_replicate n (silentInv_init appStartup),
   silentFrames_replicate 10 (silentInv_init appStartup)⟩

/-- Witness for C9: mask `14` (an undefined bit plus reverb and delay) is
stored as `6` and, having two FX bits set, maps the legacy mode to `all`. -/
theorem C9_mask_sanitized_witness :
    AppDsp_GetFxMask (AppDsp_SetFxMask 14 appStartup) = 6 ∧
    (AppDsp_SetFxMask 14 appStartup).mode = AppFxMode.all := by
  have h := C9_mask_sanitized appStartup 14
  exact ⟨h.1.trans (by decide), h.2.2 (by decide)⟩
